import Mathlib

/-!
Verification of the course-dashboard data pipeline.

The development shallowly embeds the two algorithmic cores of the
repository:

* the growth-metric engine of `src/app.py` (`compute_growth`), which
  buckets irregular snapshots of a course into one observation per
  calendar date and derives `student_diff`, `growth_rate`,
  `growth_speed` and `days_elapsed`;

* the scraper of `src/scraper.py`: the pattern extractor
  (`extract_students_from_markdown` / `parse_int`), the discovery
  accumulation with cross-page URL dedup and truncation
  (`discover_courses`), the category filter, the structural
  cross-check against the listing-card parser's map, and the per-course
  fetch/retry loop of `update_student_counts`.

Timestamps are modelled as rationals whose integer floor is the
calendar date (the fractional part is the time of day), so that
`scraped_at.dt.date` becomes `Int.floor`.  Nullable columns are
`Option`s.  Network fetches and regular-expression searches are
modelled as explicit oracles fed to the embedded functions.
-/

/-! ### Growth engine (src/app.py, `compute_growth`) -/

/-- One snapshot row of a single `(platform, course_name)` group, reduced
to the two columns the growth computation reads: the scrape timestamp
(in days, fractional part = time of day) and the nullable student count. -/
structure Snap where
  ts : ℚ
  students : Option ℚ
deriving DecidableEq, Repr

/-- `grp["scraped_at"].dt.date`: the calendar date of a snapshot. -/
def snapDate (s : Snap) : ℤ := ⌊s.ts⌋

instance : DecidableRel (fun a b : Snap => a.ts ≤ b.ts) :=
  fun a b => inferInstanceAs (Decidable (a.ts ≤ b.ts))

instance : IsTotal Snap (fun a b : Snap => a.ts ≤ b.ts) :=
  ⟨fun a b => le_total a.ts b.ts⟩

instance : IsTrans Snap (fun a b : Snap => a.ts ≤ b.ts) :=
  ⟨fun _ _ _ hab hbc => le_trans hab hbc⟩

/-- `grp.sort_values("scraped_at")`. -/
def sortByTs (l : List Snap) : List Snap :=
  List.insertionSort (fun a b : Snap => a.ts ≤ b.ts) l

/-- One output row of `grp.groupby("_date").last()` for a single date
group: pandas `GroupBy.last` takes, per column, the last non-null value
of the group (`scraped_at` is never null, so its value comes from the
last row; `students` is the last non-null count, `none` if every count
in the group is null). -/
def bucketRow (l : List Snap) : Option Snap :=
  match l.getLast? with
  | none => none
  | some x => some ⟨x.ts, (l.filterMap Snap.students).getLast?⟩

/-- Daily bucketing of one course group (src/app.py lines 206-214):
sort by `scraped_at`, assign `_date`, then group by `_date`
(keys sorted ascending) taking the last row of each date. -/
def bucketDaily (l : List Snap) : List Snap :=
  (((sortByTs l).map snapDate).dedup).filterMap
    (fun d => bucketRow ((sortByTs l).filter (fun x => snapDate x == d)))

/-- The derived growth metrics of one `(platform, course_name)` group
(the fields of the row appended at src/app.py lines 230-243 that the
growth arithmetic produces). -/
structure GrowthRec where
  student_diff : Option ℚ
  growth_rate  : Option ℚ
  growth_speed : Option ℚ
  days_elapsed : Option ℤ
  scrape_count : ℕ
deriving DecidableEq, Repr

/-- The growth arithmetic of `compute_growth` (src/app.py lines
216-243) applied to the first and last daily buckets, with
`scrape_count` the number of daily buckets.  The guard `a ≠ 0 ∧ 0 < a`
mirrors the Python truthiness test `s0 and s0 > 0`. -/
def growthOf (first last : Snap) (count : ℕ) : GrowthRec :=
  let s0 := first.students
  let s1 := last.students
  let day_diff : ℤ := snapDate last - snapDate first
  let diff : Option ℚ :=
    match s0, s1 with
    | some a, some b => some (b - a)
    | _, _ => none
  let rate : Option ℚ :=
    match diff, s0 with
    | some d, some a => if a ≠ 0 ∧ 0 < a then some (d / a * 100) else none
    | _, _ => none
  let speed : Option ℚ :=
    match diff with
    | some d => if 1 ≤ day_diff then some (d / (day_diff : ℚ)) else none
    | none => none
  { student_diff := diff
    growth_rate  := rate
    growth_speed := speed
    days_elapsed := if 1 ≤ day_diff then some day_diff else none
    scrape_count := count }

/-- `compute_growth` for a single group (src/app.py lines 205-243):
bucket to daily observations, then derive the metrics from the first
and last buckets.  `none` corresponds to an empty group, which pandas'
`groupby` never produces. -/
def computeGrowth (grp : List Snap) : Option GrowthRec :=
  match (bucketDaily grp).head?, (bucketDaily grp).getLast? with
  | some first, some last => some (growthOf first last (bucketDaily grp).length)
  | _, _ => none

example : computeGrowth [⟨0, some 50⟩] =
    some ⟨some 0, some 0, none, none, 1⟩ := by
  norm_num [computeGrowth, growthOf, bucketDaily, sortByTs, bucketRow, snapDate,
    List.insertionSort, List.filterMap]

example : computeGrowth [⟨0, some 100⟩, ⟨(1 : ℚ)/2, some 110⟩, ⟨2, some 130⟩] =
    some ⟨some 20, some (20/110*100), some 10, some 2, 2⟩ := by
  norm_num [computeGrowth, growthOf, bucketDaily, sortByTs, bucketRow, snapDate,
    List.insertionSort, List.orderedInsert, List.dedup, List.pwFilter,
    List.filterMap]

/-! ### Pattern extractor (src/scraper.py, `parse_int` /
`extract_students_from_markdown`) -/

/-- An entry of a `student_patterns` list.  A compiled regular
expression is modelled extensionally by its searcher: `search md`
returns the text captured by group 1 of the first match of the pattern
in `md` (`re.search(pat, md, re.DOTALL)` followed by `m.group(1)`), or
`none` when the pattern does not match. -/
structure Pat where
  search : String → Option String

/-- Accumulating decimal parse: consumes the remaining characters,
failing on the first non-digit. -/
def parseDigitsAux : List Char → ℕ → Option ℕ
  | [], acc => some acc
  | c :: cs, acc =>
    if c.isDigit then parseDigitsAux cs (acc * 10 + (c.toNat - 48)) else none

/-- Decimal parse of a non-empty all-digit character sequence. -/
def parseDigits : List Char → Option ℕ
  | [] => none
  | c :: cs => if c.isDigit then parseDigitsAux cs (c.toNat - 48) else none

/-- Python's `int` on a string of an optional sign and decimal digits:
`none` models the raised `ValueError`. -/
def pyInt : List Char → Option Int
  | '-' :: cs => (parseDigits cs).map (fun n => -(n : Int))
  | '+' :: cs => (parseDigits cs).map (fun n => (n : Int))
  | cs => (parseDigits cs).map (fun n => (n : Int))

/-- `parse_int` (src/scraper.py lines 123-125): strip ASCII and
full-width thousand separators, then parse the integer; `none` models
the `ValueError` raised by Python's `int`. -/
def parse_int (s : String) : Option Int :=
  pyInt (s.data.filter (fun c => c != ',' && c != '，'))

/-- `extract_students_from_markdown` (src/scraper.py lines 127-136):
try the patterns in declared order; on a match, attempt the numeric
parse, and on a `ValueError` fall through to the next pattern. -/
def extract_students_from_markdown (md : String) (patterns : List Pat) : Option Int :=
  match patterns with
  | [] => none
  | p :: rest =>
    match p.search md with
    | some g =>
      match parse_int g with
      | some n => some n
      | none => extract_students_from_markdown md rest
    | none => extract_students_from_markdown md rest

example : parse_int "5,979" = some 5979 := by decide
example : parse_int "1，234" = some 1234 := by decide
example : parse_int "x2" = none := by decide

/-! ### Discovery accumulation (src/scraper.py, `discover_courses`,
cross-page dedup at lines 343-354) -/

/-- An item extracted from a listing page, as consumed by the
cross-page dedup and the category filter: the `url` key plus the rest
of the course dict (represented by its name and the listing-page
student count). -/
structure CourseD where
  course_name : String
  url : String
  students : Option Int
deriving DecidableEq, Repr

/-- The inner `for c in courses` loop of the cross-page dedup
(src/scraper.py lines 344-348): an item is appended only when its URL
is non-empty and not yet in `seen_urls`, and then its URL is added to
`seen_urls`. -/
def addPage (st : List String × List CourseD) (page : List CourseD) :
    List String × List CourseD :=
  page.foldl
    (fun st c =>
      if c.url ≠ "" ∧ c.url ∉ st.1 then (c.url :: st.1, st.2 ++ [c]) else st)
    st

/-- The `for page_url in list_urls` loop (src/scraper.py lines
243-350), with the page contents already post-processed: stop early
once the accumulated list has reached `max_courses`, otherwise merge
the next page through the dedup. -/
def accumulatePages (max_courses : ℕ) :
    List (List CourseD) → List String → List CourseD → List CourseD
  | [], _, acc => acc
  | page :: rest, seen, acc =>
    if max_courses ≤ acc.length then acc
    else
      let st := addPage (seen, acc) page
      accumulatePages max_courses rest st.1 st.2

/-- The per-platform result of `discover_courses`: the accumulated
list truncated to the platform maximum (src/scraper.py line 352). -/
def discoverAccumulate (max_courses : ℕ) (pages : List (List CourseD)) :
    List CourseD :=
  (accumulatePages max_courses pages [] []).take max_courses

/-! ### Category filter (src/scraper.py, `discover_courses`
lines 283-299) -/

/-- `startsList n h` holds when `n` is an initial segment of `h`. -/
def startsList : List Char → List Char → Bool
  | [], _ => true
  | _ :: _, [] => false
  | a :: as, b :: bs => a == b && startsList as bs

/-- Occurrence of `needle` as a contiguous segment of the haystack. -/
def subList (needle : List Char) : List Char → Bool
  | [] => needle.isEmpty
  | b :: bs => startsList needle (b :: bs) || subList needle bs

/-- Python's `needle in hay` substring test. -/
def containsSub (needle hay : String) : Bool :=
  subList needle.data hay.data

example : containsSub "/courses/" "https://hahow.in/courses/abc" = true := by decide
example : containsSub "/project/" "https://www.pressplay.cc/blog/x" = false := by decide

/-- `url_blocklist` (src/scraper.py line 285). -/
def url_blocklist : List String := ["/services/", "/campaigns/"]

/-- The per-page category filter (src/scraper.py lines 283-297): for
`hahow` the URL must contain `/courses/` and no blocklisted segment;
for every other platform only the blocklist is applied. -/
def categoryFilter (platform : String) (courses : List CourseD) : List CourseD :=
  if platform = "hahow" then
    courses.filter (fun c =>
      containsSub "/courses/" c.url &&
      url_blocklist.all (fun b => !containsSub b c.url))
  else
    courses.filter (fun c =>
      url_blocklist.all (fun b => !containsSub b c.url))

/-! ### Structural cross-check (src/scraper.py, `discover_courses`
lines 301-320, against `parse_hahow_listing_html`) -/

/-- One value of the Listing Card Parser's map
(`parse_hahow_listing_html`, src/scraper.py line 227): the card's
category text (`get_text(strip=True)`, possibly empty) and the
already-rendered student count if one was parsed. -/
structure CardInfo where
  cardType : String
  students : Option Int
deriving DecidableEq, Repr

/-- `card_data.get(path)`: dictionary lookup in the Listing Card
Parser's map, modelled as an association list. -/
def lookupCard (card_data : List (String × CardInfo)) (path : String) :
    Option CardInfo :=
  (card_data.find? (fun p => p.1 == path)).map Prod.snd

/-- The `enriched` loop of the Hahow structural cross-check
(src/scraper.py lines 311-320): join each extracted item to the card
map by its URL path (`urlparse(url).path`, modelled by the abstract
`urlpath`); skip the item when the card's category text is truthy and
differs from 課程, otherwise keep it with the card's student count
attached (`none` when the path is absent from the map). -/
def structuralCrossCheck (urlpath : String → String)
    (card_data : List (String × CardInfo)) (courses : List CourseD) :
    List CourseD :=
  courses.filterMap (fun c =>
    match lookupCard card_data (urlpath c.url) with
    | some info =>
      if info.cardType ≠ "" ∧ info.cardType ≠ "課程" then none
      else some { c with students := info.students }
    | none => some { c with students := none })

/-! ### Update orchestrator (src/scraper.py, `update_student_counts`) -/

/-- The outcome of one `app.scrape` call for a detail page: the
markdown body (`res.markdown or ""`), or a raised exception. -/
inductive FetchResult where
  | ok (md : String)
  | err
deriving DecidableEq, Repr

/-- The `for attempt_no, opt in enumerate(attempts, start=1)` loop of
`update_student_counts` (src/scraper.py lines 406-427), consuming the
fetch outcome of each attempt in order; `total` is `len(attempts)` and
`n` the 1-based number of the current attempt.  A body shorter than
1500 characters on a non-final attempt moves on without extraction;
otherwise the pattern extractor runs, a non-null value breaks out of
the loop, and an exception breaks out leaving the count null. -/
def attemptLoop (patterns : List Pat) (total : ℕ) :
    ℕ → List FetchResult → Option Int
  | _, [] => none
  | _, .err :: _ => none
  | n, .ok md :: rest =>
    if md.length < 1500 ∧ n < total then attemptLoop patterns total (n + 1) rest
    else
      match extract_students_from_markdown md patterns with
      | some v => some v
      | none => attemptLoop patterns total (n + 1) rest

/-- The student count resolved by the full attempt sequence of one
course, given the fetch outcome of each configured attempt. -/
def fetchStudents (patterns : List Pat) (outcomes : List FetchResult) :
    Option Int :=
  attemptLoop patterns outcomes.length 1 outcomes

/-- One cached roster entry (an element of `course_list[platform]`),
with the fields `update_student_counts` reads. -/
structure RosterCourse where
  course_name : String
  teacher : String
  price : Option ℚ
  url : String
  students : Option Int
  is_funding : Bool
deriving DecidableEq, Repr

/-- One snapshot row as appended by `update_student_counts`
(src/scraper.py lines 378-387 and 432-441). -/
structure SnapshotRow where
  platform : String
  rank : ℕ
  course_name : String
  teacher : String
  price : Option ℚ
  students : Option Int
  course_url : String
  scraped_at : String
deriving DecidableEq, Repr

/-- Python's `str.strip()`: drop leading and trailing whitespace. -/
def pyStrip (s : String) : String :=
  String.mk
    (((s.data.dropWhile Char.isWhitespace).reverse.dropWhile
        Char.isWhitespace).reverse)

/-- The body of the `for rank, course in enumerate(courses, start=1)`
loop (src/scraper.py lines 370-441) for one course: use the count
already known from discovery when present; otherwise, for a valid URL,
run the two-attempt fetch sequence (narrowed to the pre-sale pattern
for PressPlay funding courses), and record a row either way.  `fetch`
is the oracle giving the outcome of each attempt's `app.scrape`. -/
def courseRow (scraped_at platform : String) (patterns presale_patterns : List Pat)
    (fetch : String → ℕ → FetchResult) (rank : ℕ) (course : RosterCourse) :
    SnapshotRow :=
  let url := pyStrip course.url
  match course.students with
  | some existing =>
    { platform := platform, rank := rank, course_name := course.course_name
      teacher := course.teacher, price := course.price
      students := some existing, course_url := url, scraped_at := scraped_at }
  | none =>
    let course_patterns :=
      if platform = "pressplay" ∧ course.is_funding then presale_patterns
      else patterns
    let students :=
      if url ≠ "" ∧ startsList "http".data url.data then
        fetchStudents course_patterns [fetch url 1, fetch url 2]
      else none
    { platform := platform, rank := rank, course_name := course.course_name
      teacher := course.teacher, price := course.price
      students := students, course_url := url, scraped_at := scraped_at }

/-- `update_student_counts` (src/scraper.py lines 360-443): the
timestamp `scraped_at` is taken once (line 363, before any platform or
course is processed) and every produced row carries it.
`platform_patterns` gives each platform's configured
`student_patterns`; `presale_patterns` is the narrowed pre-sale list. -/
def update_student_counts (scraped_at : String)
    (platform_patterns : String → List Pat) (presale_patterns : List Pat)
    (fetch : String → ℕ → FetchResult)
    (course_list : List (String × List RosterCourse)) : List SnapshotRow :=
  course_list.flatMap (fun pc =>
    pc.2.enum.map (fun ic =>
      courseRow scraped_at pc.1 (platform_patterns pc.1) presale_patterns
        fetch (ic.1 + 1) ic.2))

/-! ### Claim theorems -/

/-- C2: for every text body and ordered pattern list, the Pattern
Extractor returns the comma-stripped integer parsed from the first
pattern in declared order that both matches and parses; a pattern that
matches but fails numeric parsing is skipped like a non-match; once a
pattern succeeds, later patterns are never consulted (the result is
the same for every suffix `qs`); if no pattern succeeds the result is
null. -/
theorem extract_first_pattern_wins (md : String) (ps : List Pat)
    (hfail : ∀ q ∈ ps, (q.search md).bind parse_int = none) :
    extract_students_from_markdown md ps = none ∧
    ∀ (p : Pat) (n : Int) (qs : List Pat),
      (p.search md).bind parse_int = some n →
      extract_students_from_markdown md (ps ++ p :: qs) = some n := by
  induction ps with
  | nil =>
    refine ⟨rfl, ?_⟩
    intro p n qs hp
    cases hs : p.search md with
    | none => simp [hs] at hp
    | some g =>
      rw [hs, Option.some_bind] at hp
      simp [extract_students_from_markdown, hs, hp]
  | cons r rs ih =>
    have hr := hfail r (by simp)
    have hrs : ∀ q ∈ rs, (q.search md).bind parse_int = none := fun q hq =>
      hfail q (by simp [hq])
    obtain ⟨ih1, ih2⟩ := ih hrs
    constructor
    · cases hs : r.search md with
      | none => simpa [extract_students_from_markdown, hs] using ih1
      | some g =>
        rw [hs, Option.some_bind] at hr
        simpa [extract_students_from_markdown, hs, hr] using ih1
    · intro p n qs hp
      cases hs : r.search md with
      | none => simpa [extract_students_from_markdown, hs] using ih2 p n qs hp
      | some g =>
        rw [hs, Option.some_bind] at hr
        simpa [extract_students_from_markdown, hs, hr] using ih2 p n qs hp

/-- C2 witness: the first pattern matches `"x,y"` but fails the parse
and is skipped; the second matches `"1，234"` (full-width comma) and
wins with 1234; the third pattern is never consulted. -/
theorem extract_first_pattern_wins_witness :
    extract_students_from_markdown "頁面內容 x,y 共 1，234 位同學"
      ([Pat.mk fun _ => some "x,y"] ++
        Pat.mk (fun _ => some "1，234") :: [Pat.mk fun _ => some "999"]) =
      some 1234 :=
  (extract_first_pattern_wins "頁面內容 x,y 共 1，234 位同學"
      [Pat.mk fun _ => some "x,y"]
      (by
        intro q hq
        rw [List.mem_singleton] at hq
        subst hq
        decide)).2
    (Pat.mk fun _ => some "1，234") 1234 [Pat.mk fun _ => some "999"] (by decide)

/-- Invariant of the cross-page dedup state: every accumulated URL is
recorded in `seen_urls`, and the accumulated items have pairwise
distinct URLs. -/
def DedupInv (seen : List String) (acc : List CourseD) : Prop :=
  (∀ c ∈ acc, c.url ∈ seen) ∧ acc.Pairwise (fun a b => a.url ≠ b.url)

theorem addPage_inv (page : List CourseD) :
    ∀ seen acc, DedupInv seen acc →
      DedupInv (addPage (seen, acc) page).1 (addPage (seen, acc) page).2 := by
  induction page with
  | nil => intro seen acc h; exact h
  | cons c rest ih =>
    intro seen acc h
    obtain ⟨hseen, hpw⟩ := h
    rw [addPage, List.foldl_cons]
    by_cases hc : c.url ≠ "" ∧ c.url ∉ seen
    · rw [if_pos hc]
      refine ih (c.url :: seen) (acc ++ [c]) ⟨?_, ?_⟩
      · intro d hd
        rcases List.mem_append.mp hd with hd | hd
        · exact List.mem_cons_of_mem _ (hseen d hd)
        · rw [List.mem_singleton] at hd
          subst hd
          exact List.mem_cons_self _ _
      · rw [List.pairwise_append]
        refine ⟨hpw, List.pairwise_singleton _ _, ?_⟩
        intro a ha b hb
        rw [List.mem_singleton] at hb
        subst hb
        intro hurl
        exact hc.2 (hurl ▸ hseen a ha)
    · rw [if_neg hc]
      exact ih seen acc ⟨hseen, hpw⟩

theorem accumulatePages_inv (max_courses : ℕ) (pages : List (List CourseD)) :
    ∀ seen acc, DedupInv seen acc →
      (accumulatePages max_courses pages seen acc).Pairwise
        (fun a b => a.url ≠ b.url) := by
  induction pages with
  | nil => intro seen acc h; exact h.2
  | cons page rest ih =>
    intro seen acc h
    rw [accumulatePages]
    by_cases hlen : max_courses ≤ acc.length
    · rw [if_pos hlen]; exact h.2
    · rw [if_neg hlen]
      exact ih _ _ (addPage_inv page seen acc h)

/-- C6: within one discovery run, the per-platform accumulated list
has pairwise distinct URLs (an item whose URL was added from an
earlier page is never added again from a later page), and the final
persisted list is the accumulated list truncated to the platform's
configured maximum, preserving encounter order. -/
theorem discover_dedup_and_truncate (max_courses : ℕ)
    (pages : List (List CourseD)) :
    (accumulatePages max_courses pages [] []).Pairwise
      (fun a b => a.url ≠ b.url) ∧
    discoverAccumulate max_courses pages =
      (accumulatePages max_courses pages [] []).take max_courses :=
  ⟨accumulatePages_inv max_courses pages [] []
      ⟨fun c hc => absurd hc (List.not_mem_nil c), List.Pairwise.nil⟩,
    rfl⟩

/-- C7 counterexample: for platform `pressplay` the category filter
applies no path-membership test.  A pressplay item whose URL contains
neither the platform's item-path segment `/project/` (the path the
scraper's own listing parser keys on) nor any blocklisted segment
survives the filter, refuting that every surviving item's URL contains
the platform's item-path segment. -/
theorem category_filter_counterexample :
    categoryFilter "pressplay"
        [⟨"理財課", "https://www.pressplay.cc/blog/post1", none⟩] =
      [⟨"理財課", "https://www.pressplay.cc/blog/post1", none⟩] ∧
    containsSub "/project/" "https://www.pressplay.cc/blog/post1" = false := by
  constructor
  · decide
  · decide

/-- C7 amended: the path-membership test exists only for `hahow`
(the URL must contain `/courses/`); for every other platform —
in particular `pressplay` — only the blocklist is applied, so the
category filter keeps exactly the items whose URL avoids every
blocklisted segment, with no item-path requirement. -/
theorem category_filter_spec (platform : String) (courses : List CourseD)
    (c : CourseD) :
    (c ∈ categoryFilter "hahow" courses ↔
      c ∈ courses ∧ containsSub "/courses/" c.url = true ∧
        ∀ b ∈ url_blocklist, containsSub b c.url = false) ∧
    (platform ≠ "hahow" →
      (c ∈ categoryFilter platform courses ↔
        c ∈ courses ∧ ∀ b ∈ url_blocklist, containsSub b c.url = false)) := by
  constructor
  · rw [categoryFilter, if_pos rfl, List.mem_filter]
    simp [Bool.and_eq_true, List.all_eq_true, and_assoc]
  · intro hp
    rw [categoryFilter, if_neg hp, List.mem_filter]
    simp [List.all_eq_true]

/-- C7 amended witness: a hahow course URL containing `/courses/` and
no blocklisted segment passes the hahow filter, and a pressplay URL
with no `/project/` segment passes the pressplay filter. -/
theorem category_filter_spec_witness :
    (⟨"程式課", "https://hahow.in/courses/abc", none⟩ : CourseD) ∈
      categoryFilter "hahow" [⟨"程式課", "https://hahow.in/courses/abc", none⟩] ∧
    (⟨"理財課", "https://www.pressplay.cc/blog/post1", none⟩ : CourseD) ∈
      categoryFilter "pressplay"
        [⟨"理財課", "https://www.pressplay.cc/blog/post1", none⟩] :=
  ⟨(category_filter_spec "hahow"
        [⟨"程式課", "https://hahow.in/courses/abc", none⟩]
        ⟨"程式課", "https://hahow.in/courses/abc", none⟩).1.mpr
      ⟨by decide, by decide, by decide⟩,
    ((category_filter_spec "pressplay"
          [⟨"理財課", "https://www.pressplay.cc/blog/post1", none⟩]
          ⟨"理財課", "https://www.pressplay.cc/blog/post1", none⟩).2
        (by decide)).mpr
      ⟨by decide, by decide⟩⟩

/-- C8: the per-course attempt sequence of the Update Orchestrator.
A body shorter than 1500 characters on a non-final attempt advances to
the next attempt without running extraction; on a non-suspect body the
Pattern Extractor runs — a non-null result stops the sequence with that
value, a null result with attempts remaining advances; exhausting all
attempts records null; a fetch exception aborts the remaining attempts
and records null. -/
theorem attempt_sequence_spec (patterns : List Pat) (total n : ℕ)
    (md : String) (rest : List FetchResult) :
    (md.length < 1500 → n < total →
      attemptLoop patterns total n (.ok md :: rest) =
        attemptLoop patterns total (n + 1) rest) ∧
    (¬ md.length < 1500 →
      (∀ v, extract_students_from_markdown md patterns = some v →
        attemptLoop patterns total n (.ok md :: rest) = some v) ∧
      (extract_students_from_markdown md patterns = none →
        attemptLoop patterns total n (.ok md :: rest) =
          attemptLoop patterns total (n + 1) rest)) ∧
    attemptLoop patterns total n [] = none ∧
    attemptLoop patterns total n (.err :: rest) = none := by
  refine ⟨?_, ?_, rfl, rfl⟩
  · intro hshort hn
    rw [attemptLoop, if_pos ⟨hshort, hn⟩]
  · intro hlong
    have hcond : ¬ (md.length < 1500 ∧ n < total) := fun h => hlong h.1
    constructor
    · intro v hv
      rw [attemptLoop, if_neg hcond, hv]
    · intro hv
      rw [attemptLoop, if_neg hcond, hv]

set_option maxRecDepth 8192 in
/-- C8 witness: a 1-character body on attempt 1 of 2 advances without
extraction, and on a non-suspect 1500-character body the extractor's
value 42 is returned. -/
theorem attempt_sequence_spec_witness :
    attemptLoop [] 2 1 [.ok "x", .err] = attemptLoop [] 2 2 [.err] ∧
    attemptLoop [Pat.mk fun _ => some "42"] 2 2
        [.ok (String.mk (List.replicate 1500 'a'))] = some 42 :=
  ⟨(attempt_sequence_spec [] 2 1 "x" [.err]).1 (by decide) (by decide),
    (((attempt_sequence_spec [Pat.mk fun _ => some "42"] 2 2
            (String.mk (List.replicate 1500 'a')) []).2.1
          (by decide)).1
      42 (by decide))⟩

/-- C9: in the Hahow structural cross-check, when the listing-card
map's category text for an item's normalized path exists (is a
non-empty label) and is a label other than 課程, the item is dropped
from the roster regardless of the LLM extraction having kept it; when
the label is 課程 (or empty), the item survives, enriched with the
card's student count. -/
theorem structural_cross_check_drops_non_course (urlpath : String → String)
    (card_data : List (String × CardInfo)) (c : CourseD)
    (rest : List CourseD) :
    (∀ info, lookupCard card_data (urlpath c.url) = some info →
      info.cardType ≠ "" → info.cardType ≠ "課程" →
      structuralCrossCheck urlpath card_data (c :: rest) =
        structuralCrossCheck urlpath card_data rest) ∧
    (∀ info, lookupCard card_data (urlpath c.url) = some info →
      (info.cardType = "" ∨ info.cardType = "課程") →
      structuralCrossCheck urlpath card_data (c :: rest) =
        { c with students := info.students } ::
          structuralCrossCheck urlpath card_data rest) := by
  constructor
  · intro info hinfo h1 h2
    simp only [structuralCrossCheck, List.filterMap_cons, hinfo]
    rw [if_pos (show info.cardType ≠ "" ∧ info.cardType ≠ "課程" from ⟨h1, h2⟩)]
  · intro info hinfo hok
    simp only [structuralCrossCheck, List.filterMap_cons, hinfo]
    rw [if_neg (show ¬ (info.cardType ≠ "" ∧ info.cardType ≠ "課程") from by
      rcases hok with h | h
      · exact fun hc => hc.1 h
      · exact fun hc => hc.2 h)]

/-- C9 witness: with cards `/p1 ↦ 服務` and `/p2 ↦ 課程`, only the
課程-labeled item survives the structural cross-check, carrying the
card's rendered count. -/
theorem structural_cross_check_drops_non_course_witness :
    structuralCrossCheck id
        [("/p1", ⟨"服務", some 5⟩), ("/p2", ⟨"課程", some 7⟩)]
        [⟨"諮詢服務", "/p1", none⟩, ⟨"程式課", "/p2", none⟩] =
      [⟨"程式課", "/p2", some 7⟩] := by
  rw [(structural_cross_check_drops_non_course id
        [("/p1", ⟨"服務", some 5⟩), ("/p2", ⟨"課程", some 7⟩)]
        ⟨"諮詢服務", "/p1", none⟩ [⟨"程式課", "/p2", none⟩]).1
      ⟨"服務", some 5⟩ (by decide) (by decide) (by decide)]
  rw [(structural_cross_check_drops_non_course id
        [("/p1", ⟨"服務", some 5⟩), ("/p2", ⟨"課程", some 7⟩)]
        ⟨"程式課", "/p2", none⟩ []).2
      ⟨"課程", some 7⟩ (by decide) (Or.inr rfl)]
  rfl

theorem courseRow_scraped_at (scraped_at platform : String)
    (patterns presale_patterns : List Pat) (fetch : String → ℕ → FetchResult)
    (rank : ℕ) (course : RosterCourse) :
    (courseRow scraped_at platform patterns presale_patterns fetch rank
        course).scraped_at = scraped_at := by
  rw [courseRow]
  cases course.students <;> rfl

/-- C10: every SnapshotRow emitted by one update run carries the
single `scraped_at` timestamp taken before any course is processed;
a run can never produce rows with two different `scraped_at` values,
whatever the fetch outcomes are. -/
theorem update_scraped_at_uniform (scraped_at : String)
    (platform_patterns : String → List Pat) (presale_patterns : List Pat)
    (fetch : String → ℕ → FetchResult)
    (course_list : List (String × List RosterCourse)) (row : SnapshotRow)
    (hrow : row ∈ update_student_counts scraped_at platform_patterns
      presale_patterns fetch course_list) :
    row.scraped_at = scraped_at := by
  rw [update_student_counts] at hrow
  rw [List.mem_flatMap] at hrow
  obtain ⟨pc, _, hrow⟩ := hrow
  rw [List.mem_map] at hrow
  obtain ⟨ic, _, hrow⟩ := hrow
  rw [← hrow]
  exact courseRow_scraped_at _ _ _ _ _ _ _

/-- C10 witness at a one-course roster whose fetch raises. -/
theorem update_scraped_at_uniform_witness :
    (SnapshotRow.mk "hahow" 1 "程式課" "老師" none none ""
        "2026-10-12T00:00:00").scraped_at = "2026-10-12T00:00:00" :=
  update_scraped_at_uniform "2026-10-12T00:00:00" (fun _ => []) []
    (fun _ _ => .err) [("hahow", [⟨"程式課", "老師", none, "", none, false⟩])]
    (SnapshotRow.mk "hahow" 1 "程式課" "老師" none none ""
      "2026-10-12T00:00:00")
    (by decide)

theorem computeGrowth_eq_growthOf (grp : List Snap) (rec : GrowthRec)
    (f l : Snap) (hc : computeGrowth grp = some rec)
    (hf : (bucketDaily grp).head? = some f)
    (hl : (bucketDaily grp).getLast? = some l) :
    rec = growthOf f l (bucketDaily grp).length := by
  rw [computeGrowth, hf, hl] at hc
  exact (Option.some.inj hc).symm

/-- C1: for every snapshot group, `growth_rate` is
`student_diff / first.students * 100` exactly when `student_diff` is
non-null and the first daily bucket's student count is non-null and
strictly positive, and is null otherwise (in particular when
`first.students` is null, zero, or negative), so the division is never
evaluated against a zero or non-positive baseline. -/
theorem growth_rate_guard (grp : List Snap) (rec : GrowthRec) (f l : Snap)
    (hc : computeGrowth grp = some rec)
    (hf : (bucketDaily grp).head? = some f)
    (hl : (bucketDaily grp).getLast? = some l) :
    rec.growth_rate =
      match rec.student_diff, f.students with
      | some d, some s0 => if 0 < s0 then some (d / s0 * 100) else none
      | _, _ => none := by
  have he := computeGrowth_eq_growthOf grp rec f l hc hf hl
  subst he
  obtain ⟨ft, fs⟩ := f
  obtain ⟨lt, ls⟩ := l
  cases fs with
  | none => cases ls <;> simp [growthOf]
  | some a =>
    cases ls with
    | none => simp [growthOf]
    | some b =>
      simp only [growthOf]
      by_cases hpos : 0 < a
      · rw [if_pos ⟨ne_of_gt hpos, hpos⟩, if_pos hpos]
      · rw [if_neg (fun h => hpos h.2), if_neg hpos]

/-- C1 witness: two buckets (day 0, 100 students) → (day 1, 130):
rate = 30 / 100 * 100 = 30. -/
theorem growth_rate_guard_witness :
    (GrowthRec.mk (some 30) (some 30) (some 30) (some 1) 2).growth_rate =
      match (GrowthRec.mk (some 30) (some 30) (some 30) (some 1) 2).student_diff,
        (Snap.mk 0 (some 100)).students with
      | some d, some s0 => if 0 < s0 then some (d / s0 * 100) else none
      | _, _ => none :=
  growth_rate_guard [⟨0, some 100⟩, ⟨1, some 130⟩]
    (GrowthRec.mk (some 30) (some 30) (some 30) (some 1) 2)
    (Snap.mk 0 (some 100)) (Snap.mk 1 (some 130))
    (by norm_num [computeGrowth, growthOf, bucketDaily, sortByTs, bucketRow,
      snapDate, List.insertionSort, List.orderedInsert, List.dedup,
      List.pwFilter, List.filterMap])
    (by norm_num [bucketDaily, sortByTs, bucketRow, snapDate,
      List.insertionSort, List.orderedInsert, List.dedup, List.pwFilter,
      List.filterMap])
    (by norm_num [bucketDaily, sortByTs, bucketRow, snapDate,
      List.insertionSort, List.orderedInsert, List.dedup, List.pwFilter,
      List.filterMap])

/-- C4: for every snapshot group, `growth_speed` is
`student_diff / day_diff` exactly when `student_diff` is non-null and
the calendar-day difference between the last and first daily buckets
is at least 1, and is null otherwise — in particular null (not zero)
when the group spans fewer than two distinct calendar dates, even if
timestamps within one date differ by hours; `days_elapsed` is likewise
`day_diff` when `day_diff ≥ 1` and null otherwise. -/
theorem growth_speed_days_guard (grp : List Snap) (rec : GrowthRec)
    (f l : Snap) (hc : computeGrowth grp = some rec)
    (hf : (bucketDaily grp).head? = some f)
    (hl : (bucketDaily grp).getLast? = some l) :
    (rec.growth_speed =
      match rec.student_diff with
      | some d =>
        if 1 ≤ snapDate l - snapDate f
        then some (d / ((snapDate l - snapDate f : ℤ) : ℚ)) else none
      | none => none) ∧
    rec.days_elapsed =
      (if 1 ≤ snapDate l - snapDate f then some (snapDate l - snapDate f)
       else none) := by
  have he := computeGrowth_eq_growthOf grp rec f l hc hf hl
  subst he
  obtain ⟨ft, fs⟩ := f
  obtain ⟨lt, ls⟩ := l
  refine ⟨?_, rfl⟩
  cases fs <;> cases ls <;> simp [growthOf]

/-- C4 witness: two snapshots 21.6 hours apart on the same calendar
date collapse to one bucket; the speed and the elapsed days are null
even though `student_diff` is 0 and the timestamps differ by hours. -/
theorem growth_speed_days_guard_witness :
    ((GrowthRec.mk (some 0) (some 0) none none 1).growth_speed =
      match (GrowthRec.mk (some 0) (some 0) none none 1).student_diff with
      | some d =>
        if 1 ≤ snapDate (Snap.mk ((9:ℚ)/10) (some 130)) -
            snapDate (Snap.mk ((9:ℚ)/10) (some 130))
        then some (d / ((snapDate (Snap.mk ((9:ℚ)/10) (some 130)) -
            snapDate (Snap.mk ((9:ℚ)/10) (some 130)) : ℤ) : ℚ)) else none
      | none => none) ∧
    (GrowthRec.mk (some 0) (some 0) none none 1).days_elapsed =
      (if 1 ≤ snapDate (Snap.mk ((9:ℚ)/10) (some 130)) -
          snapDate (Snap.mk ((9:ℚ)/10) (some 130))
       then some (snapDate (Snap.mk ((9:ℚ)/10) (some 130)) -
         snapDate (Snap.mk ((9:ℚ)/10) (some 130)))
       else none) :=
  growth_speed_days_guard [⟨0, some 100⟩, ⟨(9:ℚ)/10, some 130⟩]
    (GrowthRec.mk (some 0) (some 0) none none 1)
    (Snap.mk ((9:ℚ)/10) (some 130)) (Snap.mk ((9:ℚ)/10) (some 130))
    (by norm_num [computeGrowth, growthOf, bucketDaily, sortByTs, bucketRow,
      snapDate, List.insertionSort, List.orderedInsert, List.dedup,
      List.pwFilter, List.filterMap])
    (by norm_num [bucketDaily, sortByTs, bucketRow, snapDate,
      List.insertionSort, List.orderedInsert, List.dedup, List.pwFilter,
      List.filterMap])
    (by norm_num [bucketDaily, sortByTs, bucketRow, snapDate,
      List.insertionSort, List.orderedInsert, List.dedup, List.pwFilter,
      List.filterMap])

/-- C3 counterexample: for the single-snapshot group `(B, day1, 50)`
the claim "student_diff, growth_rate, growth_speed and days_elapsed
are all null" is false — the code yields `student_diff = 0` (first and
last bucket coincide, so `last.students - first.students = 0`) and
`growth_rate = 0`, not null. -/
theorem single_snapshot_counterexample :
    ¬ (∀ rec, computeGrowth [⟨0, some 50⟩] = some rec →
        rec.student_diff = none ∧ rec.growth_rate = none ∧
        rec.growth_speed = none ∧ rec.days_elapsed = none) := by
  intro h
  have heval : computeGrowth [⟨0, some 50⟩] =
      some ⟨some 0, some 0, none, none, 1⟩ := by
    norm_num [computeGrowth, growthOf, bucketDaily, sortByTs, bucketRow,
      snapDate, List.insertionSort, List.filterMap]
  have hnull := (h ⟨some 0, some 0, none, none, 1⟩ heval).1
  simp at hnull

/-- C3 amended: for a course group containing exactly one snapshot
with a positive student count (e.g. `(B, day1, 50)`), the Growth
Engine outputs `student_diff = 0` and `growth_rate = 0` (first and
last daily bucket coincide), while `growth_speed` and `days_elapsed`
are null. -/
theorem single_snapshot_amended (t s : ℚ) (hs : 0 < s) :
    computeGrowth [⟨t, some s⟩] = some ⟨some 0, some 0, none, none, 1⟩ := by
  have hb : bucketDaily [⟨t, some s⟩] = [⟨t, some s⟩] := by
    simp [bucketDaily, sortByTs, bucketRow, List.insertionSort,
      List.filterMap, List.dedup]
  rw [computeGrowth, hb]
  simp only [List.head?_cons, List.getLast?_singleton, List.length_singleton,
    Option.some.injEq]
  simp only [growthOf, sub_self]
  rw [if_pos ⟨ne_of_gt hs, hs⟩]
  norm_num

/-- C3 witness: the amended statement evaluated at `(day 0, 50)`. -/
theorem single_snapshot_amended_witness :
    computeGrowth [⟨0, some 50⟩] = some ⟨some 0, some 0, none, none, 1⟩ :=
  single_snapshot_amended 0 50 (by norm_num)

theorem sortByTs_sorted (l : List Snap) :
    (sortByTs l).Sorted (fun a b : Snap => a.ts ≤ b.ts) :=
  List.sorted_insertionSort _ l

theorem mem_of_getLast?_eq {α : Type} {l : List α} {a : α}
    (h : l.getLast? = some a) : a ∈ l := by
  obtain ⟨hne, hx⟩ :=
    List.mem_getLast?_eq_getLast (show a ∈ l.getLast? from h)
  exact hx ▸ List.getLast_mem hne

theorem bucketRow_date (s : List Snap) (d : ℤ) (x : Snap)
    (h : bucketRow (s.filter (fun y => snapDate y == d)) = some x) :
    snapDate x = d := by
  rw [bucketRow] at h
  cases hg : (s.filter (fun y => snapDate y == d)).getLast? with
  | none => rw [hg] at h; exact absurd h (by simp)
  | some y =>
    rw [hg] at h
    have hy : y ∈ s.filter (fun y => snapDate y == d) := mem_of_getLast?_eq hg
    have hd : snapDate y = d := by
      have := (List.mem_filter.mp hy).2
      exact beq_iff_eq.mp this
    have hx : x = ⟨y.ts, ((s.filter (fun y => snapDate y == d)).filterMap
        Snap.students).getLast?⟩ := (Option.some.inj h).symm
    rw [hx]
    exact hd

theorem bucketDaily_pairwise (l : List Snap) :
    (bucketDaily l).Pairwise (fun a b => snapDate a < snapDate b) := by
  have h1 := sortByTs_sorted l
  have h2 : ((sortByTs l).map snapDate).Pairwise (· ≤ ·) :=
    List.Pairwise.map snapDate (fun a b hab => Int.floor_mono hab) h1
  have h3 : (((sortByTs l).map snapDate).dedup).Pairwise (· ≤ ·) :=
    List.Pairwise.sublist (List.dedup_sublist _) h2
  have h4 : (((sortByTs l).map snapDate).dedup).Pairwise (· ≠ ·) :=
    List.nodup_dedup _
  have h5 : (((sortByTs l).map snapDate).dedup).Pairwise (· < ·) :=
    (h3.and h4).imp fun h => lt_of_le_of_ne h.1 h.2
  exact List.Pairwise.filterMap _
    (fun d d' hdd x hx y hy => by
      rw [bucketRow_date (sortByTs l) d x hx,
        bucketRow_date (sortByTs l) d' y hy]
      exact hdd)
    h5

theorem bucketRow_single (x : Snap) : bucketRow [x] = some x := by
  obtain ⟨t, s⟩ := x
  cases s <;> simp [bucketRow, List.filterMap]

theorem filter_eq_singleton_of_pairwise :
    ∀ (b : List Snap),
      b.Pairwise (fun a c => snapDate a < snapDate c) →
      ∀ x ∈ b, b.filter (fun y => snapDate y == snapDate x) = [x] := by
  intro b
  induction b with
  | nil => intro _ x hx; exact absurd hx (List.not_mem_nil x)
  | cons a rest ih =>
    intro hpw x hx
    obtain ⟨h1, h2⟩ := List.pairwise_cons.mp hpw
    rcases List.mem_cons.mp hx with hx | hx
    · subst hx
      rw [List.filter_cons_of_pos (by simp)]
      rw [List.filter_eq_nil_iff.mpr]
      intro y hy
      simp only [beq_iff_eq]
      exact ne_of_gt (h1 y hy)
    · rw [List.filter_cons_of_neg (by
        simp only [beq_iff_eq]
        exact ne_of_lt (h1 x hx))]
      exact ih h2 x hx

theorem filterMap_map_self (f : ℤ → Option Snap) :
    ∀ (sub : List Snap), (∀ x ∈ sub, f (snapDate x) = some x) →
      (sub.map snapDate).filterMap f = sub := by
  intro sub
  induction sub with
  | nil => intro _; rfl
  | cons x rest ih =>
    intro h
    rw [List.map_cons, List.filterMap_cons, h x (List.mem_cons_self x rest),
      ih (fun y hy => h y (List.mem_cons_of_mem x hy))]

/-- C5: daily bucketing is idempotent — applying the bucketing to an
already-bucketed snapshot list yields the same list of rows. -/
theorem bucket_daily_idempotent (l : List Snap) :
    bucketDaily (bucketDaily l) = bucketDaily l := by
  have hpw := bucketDaily_pairwise l
  set b := bucketDaily l with hbdef
  have hts : b.Sorted (fun a c : Snap => a.ts ≤ c.ts) :=
    hpw.imp fun h =>
      le_of_not_lt fun hlt => absurd h (not_lt.mpr (Int.floor_mono hlt.le))
  have hsort : sortByTs b = b := hts.insertionSort_eq
  have hnd : (b.map snapDate).Pairwise (· ≠ ·) :=
    List.Pairwise.map snapDate (fun a c h => ne_of_lt h) hpw
  have hded : (b.map snapDate).dedup = b.map snapDate :=
    List.dedup_eq_self.mpr hnd
  rw [bucketDaily, hsort, hded]
  apply filterMap_map_self
  intro x hx
  rw [filter_eq_singleton_of_pairwise b hpw x hx]
  exact bucketRow_single x
